import Mathlib

/-!
Verification of `cnexp/redo.py`, a dependency-driven job dispatcher that
bridges the `redo` incremental build tool with the Slurm batch scheduler.

Subprocess interactions (the `redo-ood` staleness oracle, `sbatch`
submissions, `squeue` status queries, local `redo-ifchange` calls) are
modelled by explicit oracles supplied as arguments; each dispatcher
function returns its outcome together with the trace of subprocess
invocations it performed.
-/

namespace Redo

/-- Result of a finished subprocess: exit code and captured standard output
(`subprocess.run(..., capture_output=True)`). -/
structure ProcResult where
  returncode : Int
  stdout : String
deriving DecidableEq, Repr

/-- Python `s.split("\n")` over a character list: split at every newline,
keeping empty pieces (so the empty string yields `[""]` and a trailing
newline yields a trailing `""`). -/
def splitLinesAux : List Char → List Char → List String
  | [], acc => [String.mk acc.reverse]
  | c :: cs, acc =>
    if c = '\n' then
      String.mk acc.reverse :: splitLinesAux cs []
    else
      splitLinesAux cs (c :: acc)

/-- Python `s.split("\n")`. -/
def splitLines (s : String) : List String :=
  splitLinesAux s.data []

/-- `_redo_ood_list`: run the `redo-ood` oracle over the dependency list;
on exit code 0 a target is stale iff its path string occurs among the
oracle's stdout lines, otherwise every target counts as stale.  The
oracle's subprocess result is passed in explicitly. -/
def redoOodList (deplist : List String) (oodProc : ProcResult) : List Bool :=
  if oodProc.returncode = 0 then
    deplist.map (fun dep => (splitLines oodProc.stdout).contains dep)
  else
    deplist.map (fun _ => true)

/-- The fixed GPU partition list of `_is_gpu_partition` (the interactive
partition is commented out in the source). -/
def gpuPartitions : List String :=
  ["gpu-2080ti", "gpu-2080ti-dev", "gpu-2080ti-preemptable",
   "gpu-v100", "gpu-v100-preemptable"]

/-- `_is_gpu_partition`: membership in the fixed list.  Python
`None in [...]` over a list of strings is `False`, hence `none ↦ false`. -/
def isGpuPartition : Option String → Bool
  | none => false
  | some p => gpuPartitions.contains p

/-- A Python argument that is either a single scalar (broadcast over all
targets) or a per-target list. -/
inductive ScalarOrList (α : Type) where
  | scalar : α → ScalarOrList α
  | list : List α → ScalarOrList α
deriving DecidableEq, Repr

/-- Python `[l for l, b in zip(xs, bs) if b]` (`zip` truncates to the
shorter list). -/
def filterZip {α : Type} (xs : List α) (bs : List Bool) : List α :=
  (xs.zip bs).filterMap (fun p => if p.2 then some p.1 else none)

/-- `_redo_filter_list`: a non-list value passes through unchanged, a list
is filtered by the boolean list. -/
def redoFilterList {α : Type} : ScalarOrList α → List Bool → ScalarOrList α
  | .scalar a, _ => .scalar a
  | .list xs, bs => .list (filterZip xs bs)

/-- The broadcasting at the top of `_slurm_launch_and_wait`:
`if not isinstance(x, list): x = [x] * len(deplist)`. -/
def broadcast {α : Type} : ScalarOrList α → Nat → List α
  | .scalar a, n => List.replicate n a
  | .list xs, _ => xs

/-- The `name`/`names` argument: Python `None`, a single string, or a
list of strings. -/
inductive NameArg where
  | pyNone : NameArg
  | scalar : String → NameArg
  | list : List String → NameArg
deriving DecidableEq, Repr

/-- `_redo_filter_list` applied to the name argument (only a genuine list
is filtered; `None` and a single string pass through). -/
def redoFilterName : NameArg → List Bool → NameArg
  | .pyNone, _ => .pyNone
  | .scalar s, _ => .scalar s
  | .list xs, bs => .list (filterZip xs bs)

/-- Python `f"redo{i:02d}"`: `redo` followed by `i` zero-padded to at
least two digits. -/
def genName (i : Nat) : String :=
  if i < 10 then "redo0" ++ toString i else "redo" ++ toString i

/-- `names = [f"redo{i:02d}" for i in range(len(deplist))]`. -/
def genNames (n : Nat) : List String :=
  (List.range n).map genName

/-- The per-job data zipped together in `_slurm_launch_and_wait`'s launch
loop. -/
structure SubmitSpec where
  name : String
  dep : String
  part : Option String
  nCpu : Option Nat
  mem : Option String
  timeStr : Option String
deriving DecidableEq, Repr

/-- Python `zip(names, deplist, partition, n_cpus, mem, time_str)`:
truncates to the shortest of the six lists. -/
def zipSpecs : List String → List String → List (Option String) →
    List (Option Nat) → List (Option String) → List (Option String) →
    List SubmitSpec
  | n :: ns, d :: ds, p :: ps, c :: cs, m :: ms, t :: ts =>
    ⟨n, d, p, c, m, t⟩ :: zipSpecs ns ds ps cs ms ts
  | _, _, _, _, _, _ => []

/-- The `sbatch_args` list built per job in `_slurm_launch_and_wait`:
each resource flag is emitted only when its value is not `None`, and the
GPU resource request is appended exactly when the partition classifies as
GPU. -/
def sbatchArgs (part : Option String) (nCpu : Option Nat)
    (m timeStr : Option String) : List String :=
  (match part with
   | some p => ["--partition", p]
   | none => []) ++
  (match nCpu with
   | some n => ["--cpus-per-task", toString n]
   | none => []) ++
  (match m with
   | some s => ["--mem", s]
   | none => []) ++
  (match timeStr with
   | some s => ["--time", s]
   | none => []) ++
  (if isGpuPartition part then ["--gres=gpu:1"] else [])

/-- The full scheduler command line,
`["sbatch", *sbatch_args, "--job-name", name]`. -/
def sbatchCommand (s : SubmitSpec) : List String :=
  "sbatch" :: (sbatchArgs s.part s.nCpu s.mem s.timeStr ++ ["--job-name", s.name])

/-- Test that one character list begins with another, returning the
remainder after the pattern. -/
def charsStartWith : List Char → List Char → Option (List Char)
  | [], rest => some rest
  | _ :: _, [] => none
  | p :: ps, c :: cs => if c = p then charsStartWith ps cs else none

/-- `re.match(r"Submitted batch job (\d+)", stdout)`, group 1: the match is
anchored at the start of the text and `\d+` greedily takes the maximal
digit run; there is no match when the literal part is absent or when no
digit follows it. -/
def parseJobId (s : String) : Option String :=
  match charsStartWith "Submitted batch job ".data s.data with
  | none => none
  | some rest =>
    let digits := rest.takeWhile Char.isDigit
    if digits.isEmpty then none else some (String.mk digits)

/-- The ways a dispatch call dies: the workdir assertion
(`AssertionError`), the `RuntimeError` raised on a failed `sbatch`, the
`TypeError` raised when the unmatched `re.match` result is subscripted,
and the unknown-user `ValueError`. -/
inductive DispatchError where
  | preconditionError : DispatchError
  | submissionError : Int → DispatchError
  | parseError : DispatchError
  | configurationError : DispatchError
deriving DecidableEq, Repr

/-- One subprocess invocation performed by the dispatcher. -/
inductive Event where
  | ood : List String → Event
  | sbatch : SubmitSpec → Event
  | squeue : Event
  | redoIfchange : List String → Event
deriving DecidableEq, Repr

/-- The submit loop of `_slurm_launch_and_wait`: for each job in order,
run `sbatch` (the i-th call's outcome is `oracle i`); a non-zero exit
raises `RuntimeError`, an acknowledgment that does not match
`Submitted batch job (\d+)` raises when the match object is subscripted;
otherwise the job id is collected and the loop continues.  Returns the
trace of `sbatch` invocations performed together with the outcome. -/
def launchJobs (oracle : Nat → ProcResult) :
    List SubmitSpec → Nat → List Event × Except DispatchError (List String)
  | [], _ => ([], .ok [])
  | s :: rest, i =>
    let r := oracle i
    if r.returncode ≠ 0 then
      ([.sbatch s], .error (.submissionError r.returncode))
    else
      match parseJobId r.stdout with
      | none => ([.sbatch s], .error .parseError)
      | some jid =>
        let next := launchJobs oracle rest (i + 1)
        (.sbatch s :: next.1, next.2.map (fun ids => jid :: ids))

/-- The `squeue` polling loop of `_slurm_launch_and_wait`: `queueLen i`
is the output length of the i-th status query; the loop sleeps and
re-queries while a query returns non-empty output and stops the first
time one returns empty output.  `fuel` bounds the number of queries so
the model is total; the result is the number of queries issued, `none`
when `fuel` queries did not suffice. -/
def pollQueries (queueLen : Nat → Nat) : Nat → Nat → Option Nat
  | 0, _ => none
  | fuel + 1, i =>
    if queueLen i = 0 then some 1
    else (pollQueries queueLen fuel (i + 1)).map (fun n => n + 1)

/-- The job list `_slurm_launch_and_wait` submits: broadcast non-list
arguments to the length of `deplist`, generate default names when the
name argument is `None`, and zip everything together (`zip` truncates to
the shortest list). -/
def slurmSpecs (deplist : List String) (partition : ScalarOrList (Option String))
    (nCpus : ScalarOrList (Option Nat)) (mem timeStr : ScalarOrList (Option String))
    (names : NameArg) : List SubmitSpec :=
  let parts := broadcast partition deplist.length
  let cpus := broadcast nCpus deplist.length
  let mems := broadcast mem deplist.length
  let tims := broadcast timeStr deplist.length
  let nms :=
    match names with
    | .pyNone => genNames deplist.length
    | .scalar s => List.replicate deplist.length s
    | .list xs => xs
  zipSpecs nms deplist parts cpus mems tims

/-- The arguments the mlcloud branch of `redo_ifchange_slurm` passes on to
`_slurm_launch_and_wait`: the dependency list and the partition, CPU,
time and name arguments are filtered by the staleness list, but `mem` is
passed through unfiltered (`mem=mem` in the source). -/
def remoteSpecs (deplist : List String) (isOod : List Bool)
    (partition : ScalarOrList (Option String)) (nCpus : ScalarOrList (Option Nat))
    (mem timeStr : ScalarOrList (Option String)) (name : NameArg) :
    List SubmitSpec :=
  slurmSpecs (filterZip deplist isOod)
    (redoFilterList partition isOod)
    (redoFilterList nCpus isOod)
    mem
    (redoFilterList timeStr isOod)
    (redoFilterName name isOod)

/-- The external world of one remote dispatch call: resolution of each
path against `$WORK`, the staleness oracle's subprocess result, the
outcome of the i-th `sbatch` call, the output length of the i-th
`squeue` call, and fuel bounding the polling loop in the model. -/
structure RemoteEnv where
  resolveInWork : String → Bool
  oodProc : ProcResult
  sbatch : Nat → ProcResult
  queueLen : Nat → Nat
  fuel : Nat

/-- The mlcloud branch of `redo_ifchange_slurm`: assert that every
dependency resolves inside `$WORK` (before any subprocess runs), query
staleness, filter the arguments, launch the jobs and poll for completion,
then re-run `redo-ifchange` on the original dependency list.  Returns the
outcome together with the subprocess trace, or `none` when the polling
fuel runs out. -/
def redoIfchangeSlurmRemote (env : RemoteEnv) (deplist : List String)
    (partition : ScalarOrList (Option String)) (nCpus : ScalarOrList (Option Nat))
    (mem timeStr : ScalarOrList (Option String)) (name : NameArg) :
    Option (Except DispatchError Unit × List Event) :=
  if deplist.all env.resolveInWork then
    let isOod := redoOodList deplist env.oodProc
    let specs := remoteSpecs deplist isOod partition nCpus mem timeStr name
    let launch := launchJobs env.sbatch specs 0
    match launch.2 with
    | .error e => some (.error e, Event.ood deplist :: launch.1)
    | .ok _ =>
      match pollQueries env.queueLen env.fuel 0 with
      | none => none
      | some q =>
        some (.ok (), Event.ood deplist :: launch.1 ++
          List.replicate q Event.squeue ++ [Event.redoIfchange deplist])
  else
    some (.error .preconditionError, [])

/-- `redo(deplist, "redo-ifchange")`: one `subprocess.call` of
`redo-ifchange` on the given dependencies; `callExit` gives the exit code
of a command line. -/
def redoCall (callExit : List String → Int) (deplist : List String) : Int :=
  callExit ("redo-ifchange" :: deplist)

/-- The cin-cluster (local-only) branch of `redo_ifchange_slurm`:
GPU-class targets are rebuilt one `redo-ifchange` call at a time in list
order, all remaining targets go into one batched call; every exit code is
computed and then discarded (the list comprehension's value is unused and
`subprocess.call` does not raise on a non-zero exit), after which the
branch falls off the end of the function.  Returns the exit codes of the
invocations in order, together with the function's outcome. -/
def redoIfchangeSlurmLocal (callExit : List String → Int)
    (deplist : List String) (partition : ScalarOrList (Option String)) :
    List Int × Except DispatchError Unit :=
  let partitions := broadcast partition deplist.length
  let pairs := deplist.zip partitions
  let gpuCodes := (pairs.filter (fun dp => isGpuPartition dp.2)).map
    (fun dp => redoCall callExit [dp.1])
  let restCode := redoCall callExit
    ((pairs.filter (fun dp => !isGpuPartition dp.2)).map (fun dp => dp.1))
  (gpuCodes ++ [restCode], .ok ())

/-- The flag strings `sbatch_args` can contain. -/
def sbatchFlags : List String :=
  ["--partition", "--cpus-per-task", "--mem", "--time", "--gres=gpu:1"]

/-! ## Claim C3: shape and success semantics of the staleness filter -/

/-- C3: for every target list and every oracle outcome, `_redo_ood_list`
returns a boolean list of the same length and order as the target list;
on oracle success (exit code 0), element `i` is `true` exactly when
target `i`'s path string appears among the oracle's stdout lines. -/
theorem c3_checkStale_shape (T : List String) (r : ProcResult) :
    (redoOodList T r).length = T.length ∧
    (r.returncode = 0 → ∀ i : Nat,
      (redoOodList T r)[i]? =
        (T[i]?).map (fun dep => (splitLines r.stdout).contains dep)) := by
  refine ⟨?_, ?_⟩
  · unfold redoOodList
    split <;> simp
  · intro h i
    unfold redoOodList
    rw [if_pos h, List.getElem?_map]

/-- Witness for C3 at a concrete oracle run: two targets, the oracle
reports only the first stale. -/
theorem c3_checkStale_shape_witness :
    (0 : Int) = 0 ∧
    (redoOodList ["a", "b"] ⟨0, "a"⟩).length = 2 ∧
    (redoOodList ["a", "b"] ⟨0, "a"⟩)[1]? =
      ((["a", "b"] : List String)[1]?).map
        (fun dep => (splitLines (ProcResult.mk 0 "a").stdout).contains dep) :=
  ⟨rfl, (c3_checkStale_shape ["a", "b"] ⟨0, "a"⟩).1,
    (c3_checkStale_shape ["a", "b"] ⟨0, "a"⟩).2 rfl 1⟩

/-! ## Claim C4: oracle failure degrades to all-stale -/

/-- C4: if the staleness-oracle subprocess exits non-zero, `_redo_ood_list`
returns the all-`true` list of the targets' length, regardless of the
oracle's output. -/
theorem c4_oracleFailure_allStale (T : List String) (r : ProcResult)
    (h : r.returncode ≠ 0) :
    redoOodList T r = List.replicate T.length true := by
  unfold redoOodList
  rw [if_neg h]
  induction T with
  | nil => rfl
  | cons x xs ih => simp [List.replicate_succ, ih]

/-- Witness for C4: a failing oracle marks both targets stale even though
its output names only one of them. -/
theorem c4_oracleFailure_allStale_witness :
    (1 : Int) ≠ 0 ∧ redoOodList ["a", "b"] ⟨1, "a"⟩ = List.replicate 2 true :=
  ⟨by decide, c4_oracleFailure_allStale ["a", "b"] ⟨1, "a"⟩ (by decide)⟩

/-! ## Claim C5: workspace-root precondition precedes any subprocess -/

/-- C5: in the remote branch, if some target does not resolve inside the
workspace root, the dispatch call fails with the precondition error and
its subprocess trace is empty (no staleness query, no submission, no
status query has run). -/
theorem c5_preconditionBeforeSubmission (env : RemoteEnv) (deplist : List String)
    (partition : ScalarOrList (Option String)) (nCpus : ScalarOrList (Option Nat))
    (mem timeStr : ScalarOrList (Option String)) (name : NameArg)
    (h : ∃ dep ∈ deplist, env.resolveInWork dep = false) :
    redoIfchangeSlurmRemote env deplist partition nCpus mem timeStr name =
      some (.error .preconditionError, []) := by
  have hall : deplist.all env.resolveInWork = false := by
    rw [List.all_eq_false]
    obtain ⟨dep, hmem, hdep⟩ := h
    exact ⟨dep, hmem, by simp [hdep]⟩
  unfold redoIfchangeSlurmRemote
  rw [hall]
  simp

/-- Witness for C5: one target, resolution fails, the call returns the
precondition error with an empty trace. -/
theorem c5_preconditionBeforeSubmission_witness :
    (∃ dep ∈ (["/work/b.out"] : List String),
      (RemoteEnv.mk (fun _ => false) ⟨0, ""⟩ (fun _ => ⟨0, ""⟩) (fun _ => 0) 0).resolveInWork dep = false) ∧
    redoIfchangeSlurmRemote
      (RemoteEnv.mk (fun _ => false) ⟨0, ""⟩ (fun _ => ⟨0, ""⟩) (fun _ => 0) 0)
      ["/work/b.out"] (.scalar none) (.scalar none) (.scalar none) (.scalar none)
      .pyNone = some (.error .preconditionError, []) :=
  ⟨⟨"/work/b.out", by simp, rfl⟩,
    c5_preconditionBeforeSubmission _ _ _ _ _ _ _ ⟨"/work/b.out", by simp, rfl⟩⟩

/-! ## Claim C8: the partition classifier -/

/-- C8: `_is_gpu_partition` is true exactly on members of the fixed GPU
partition list, is false on `None` and on every unknown name, and is a
pure function (two applications to equal arguments are equal). -/
theorem c8_isGpuPartition_spec (p : Option String) :
    (isGpuPartition p = true ↔ ∃ s, p = some s ∧ s ∈ gpuPartitions) ∧
    isGpuPartition none = false ∧
    (∀ s : String, s ∉ gpuPartitions → isGpuPartition (some s) = false) ∧
    (∀ q : Option String, p = q → isGpuPartition p = isGpuPartition q) := by
  refine ⟨?_, rfl, ?_, fun q hq => by rw [hq]⟩
  · cases p with
    | none => simp [isGpuPartition]
    | some s => simp [isGpuPartition]
  · intro s hs
    simpa [isGpuPartition] using hs

/-- Witness for C8: an unknown (CPU) partition classifies as non-GPU. -/
theorem c8_isGpuPartition_spec_witness :
    "cpu-short" ∉ gpuPartitions ∧ isGpuPartition (some "cpu-short") = false :=
  ⟨by decide,
    (c8_isGpuPartition_spec (some "cpu-short")).2.2.1 "cpu-short" (by decide)⟩

/-! ## Claim C7: the completion poller stops at the first empty answer -/

/-- Generalised form of the polling count, over an arbitrary start index:
if the queries at offsets `0..N-1` from `s` answer non-empty and the one
at offset `N` answers empty, the loop issues exactly `N + 1` queries
(given enough fuel). -/
theorem pollQueries_count (q : Nat → Nat) :
    ∀ (N s fuel : Nat), (∀ i, i < N → q (s + i) ≠ 0) → q (s + N) = 0 →
      N < fuel → pollQueries q fuel s = some (N + 1) := by
  intro N
  induction N with
  | zero =>
    intro s fuel _ h0 hf
    obtain ⟨f, rfl⟩ : ∃ f, fuel = f + 1 := ⟨fuel - 1, by omega⟩
    have h0s : q s = 0 := by simpa using h0
    simp [pollQueries, h0s]
  | succ n ih =>
    intro s fuel h h0 hf
    obtain ⟨f, rfl⟩ : ∃ f, fuel = f + 1 := ⟨fuel - 1, by omega⟩
    have hs : q s ≠ 0 := by simpa using h 0 (Nat.succ_pos n)
    have hrec : pollQueries q f (s + 1) = some (n + 1) := by
      apply ih
      · intro i hi
        have heq : s + 1 + i = s + (i + 1) := by omega
        rw [heq]
        exact h (i + 1) (by omega)
      · have heq : s + 1 + n = s + (n + 1) := by omega
        rw [heq]
        exact h0
      · omega
    simp [pollQueries, hs, hrec]

/-- C7: given a scheduler whose status queries answer non-empty exactly
`N` times and then empty, the polling loop of `_slurm_launch_and_wait`
terminates having issued exactly `N + 1` queries (for any fuel bound
larger than `N`, so the count is independent of the bound). -/
theorem c7_pollerQueryCount (q : Nat → Nat) (N fuel : Nat)
    (hbusy : ∀ i, i < N → q i ≠ 0) (hempty : q N = 0) (hfuel : N < fuel) :
    pollQueries q fuel 0 = some (N + 1) := by
  have hres := pollQueries_count q N 0 fuel ?_ ?_ hfuel
  · exact hres
  · intro i hi
    simpa using hbusy i hi
  · simpa using hempty

/-- Witness for C7: two busy answers then an empty one give exactly three
queries. -/
theorem c7_pollerQueryCount_witness :
    (∀ i, i < 2 → (fun j => if j < 2 then 1 else 0) i ≠ 0) ∧
    pollQueries (fun j => if j < 2 then 1 else 0) 5 0 = some 3 :=
  ⟨by decide, c7_pollerQueryCount (fun j => if j < 2 then 1 else 0) 2 5
    (by decide) (by decide) (by decide)⟩

/-! ## Claim C2: the local-only branch ignores build-tool exit codes -/

/-- Counterexample to C2 as stated: in the local-only branch a single
non-GPU target's `redo-ifchange` invocation exits with code 1, yet the
dispatch call completes with the `ok` outcome — the failure does not
propagate (the exit code of `subprocess.call` is discarded). -/
theorem c2_counterexample :
    redoIfchangeSlurmLocal (fun _ => 1) ["a"] (.scalar (some "cpu-short")) =
      ([1], .ok ()) := rfl

/-- C2 (amended): in the local-only branch, build-tool exit codes are
collected and discarded; the dispatch call returns the `ok` outcome for
every oracle, and the number of invocations is the number of GPU-class
targets plus one batched call for the rest. -/
theorem c2_localFailuresIgnored (callExit : List String → Int)
    (deplist : List String) (partition : ScalarOrList (Option String)) :
    (redoIfchangeSlurmLocal callExit deplist partition).2 = .ok () ∧
    (redoIfchangeSlurmLocal callExit deplist partition).1.length =
      ((deplist.zip (broadcast partition deplist.length)).filter
        (fun dp => isGpuPartition dp.2)).length + 1 := by
  constructor
  · rfl
  · simp [redoIfchangeSlurmLocal]

/-! ## Claim C1: no length-mismatch check exists -/

/-- The launch-loop zip truncates to the shortest of its six inputs. -/
theorem zipSpecs_length : ∀ (ns ds : List String) (ps : List (Option String))
    (cs : List (Option Nat)) (ms ts : List (Option String)),
    (zipSpecs ns ds ps cs ms ts).length =
      min ns.length (min ds.length (min ps.length (min cs.length
        (min ms.length ts.length)))) := by
  intro ns
  induction ns with
  | nil => intro ds ps cs ms ts; simp [zipSpecs]
  | cons n ns ih =>
    intro ds ps cs ms ts
    cases ds with
    | nil => simp [zipSpecs]
    | cons d ds =>
      cases ps with
      | nil => simp [zipSpecs]
      | cons p ps =>
        cases cs with
        | nil => simp [zipSpecs]
        | cons c cs =>
          cases ms with
          | nil => simp [zipSpecs]
          | cons m ms =>
            cases ts with
            | nil => simp [zipSpecs]
            | cons t ts =>
              simp only [zipSpecs, List.length_cons, ih]
              omega

/-- Counterexample to C1 as stated: a two-target dependency list with a
one-element per-target partition list (both targets stale, resolution and
all scheduler calls succeeding).  No length-mismatch error is raised;
instead one job IS submitted (for the first target only, by `zip`
truncation) and the dispatch call completes with the `ok` outcome. -/
theorem c1_counterexample :
    redoIfchangeSlurmRemote
      (RemoteEnv.mk (fun _ => true) ⟨0, "a\nb"⟩
        (fun _ => ⟨0, "Submitted batch job 7"⟩) (fun _ => 0) 1)
      ["a", "b"] (.list [some "cpu-short"]) (.scalar none) (.scalar none)
      (.scalar none) .pyNone =
    some (.ok (),
      [Event.ood ["a", "b"],
       Event.sbatch ⟨"redo00", "a", some "cpu-short", none, none, none⟩,
       Event.squeue, Event.redoIfchange ["a", "b"]]) := rfl

/-- C1 (amended): the dispatcher performs no length check at all.  A
per-target partition list of mismatched length is silently truncated
against the target list by Python `zip`: the number of jobs built for
submission is the minimum of the two lengths (here with the remaining
fields scalar and generated names). -/
theorem c1_noLengthCheck (ds : List String) (ps : List (Option String)) :
    (slurmSpecs ds (.list ps) (.scalar none) (.scalar none) (.scalar none)
      .pyNone).length = min ds.length ps.length := by
  unfold slurmSpecs broadcast genNames
  rw [zipSpecs_length]
  simp
  omega

/-! ## Claim C9: submission failures abort the dispatch call -/

/-- Generalised over the start index of the launch loop: if the first `k`
`sbatch` calls succeed and parse, the loop's outcome on the `k`-th call
failing (non-zero exit, or zero exit with unparseable acknowledgment) is
the corresponding fatal error after exactly `k + 1` submissions. -/
theorem launchJobs_fail (oracle : Nat → ProcResult) :
    ∀ (specs : List SubmitSpec) (k s : Nat), k < specs.length →
      (∀ i, i < k → (oracle (s + i)).returncode = 0 ∧
        parseJobId (oracle (s + i)).stdout ≠ none) →
      (((oracle (s + k)).returncode ≠ 0 →
        (launchJobs oracle specs s).1.length = k + 1 ∧
        (launchJobs oracle specs s).2 =
          .error (.submissionError (oracle (s + k)).returncode)) ∧
       ((oracle (s + k)).returncode = 0 →
        parseJobId (oracle (s + k)).stdout = none →
        (launchJobs oracle specs s).1.length = k + 1 ∧
        (launchJobs oracle specs s).2 = .error .parseError)) := by
  intro specs
  induction specs with
  | nil =>
    intro k s hk
    simp at hk
  | cons sp rest ih =>
    intro k s hk hprev
    cases k with
    | zero =>
      constructor
      · intro hrc
        have hrc0 : (oracle s).returncode ≠ 0 := by simpa using hrc
        refine ⟨?_, ?_⟩ <;> simp [launchJobs, hrc0]
      · intro hrc hpj
        have hrc0 : (oracle s).returncode = 0 := by simpa using hrc
        have hpj0 : parseJobId (oracle s).stdout = none := by simpa using hpj
        refine ⟨?_, ?_⟩ <;> simp [launchJobs, hrc0, hpj0]
    | succ n =>
      have h0 := hprev 0 (Nat.succ_pos n)
      have hrc0 : (oracle s).returncode = 0 := by simpa using h0.1
      obtain ⟨jid, hjid⟩ : ∃ j, parseJobId (oracle s).stdout = some j := by
        cases hpj : parseJobId (oracle s).stdout with
        | none =>
          have hne : parseJobId (oracle s).stdout ≠ none := by simpa using h0.2
          exact absurd hpj hne
        | some j => exact ⟨j, rfl⟩
      have hk2 : n < rest.length := by
        simpa using Nat.lt_of_succ_lt_succ (by simpa using hk)
      have hprev2 : ∀ i, i < n → (oracle (s + 1 + i)).returncode = 0 ∧
          parseJobId (oracle (s + 1 + i)).stdout ≠ none := by
        intro i hi
        have heq : s + 1 + i = s + (i + 1) := by omega
        rw [heq]
        exact hprev (i + 1) (by omega)
      have ihres := ih n (s + 1) hk2 hprev2
      have hshift : s + 1 + n = s + (n + 1) := by omega
      rw [hshift] at ihres
      constructor
      · intro hrc
        have hr := ihres.1 hrc
        refine ⟨?_, ?_⟩ <;>
          simp [launchJobs, hrc0, hjid, hr.1, hr.2, Except.map]
      · intro hrc hpj
        have hr := ihres.2 hrc hpj
        refine ⟨?_, ?_⟩ <;>
          simp [launchJobs, hrc0, hjid, hr.1, hr.2, Except.map]

/-- C9: in the launch loop, after `k` successful and parseable
submissions, a `k`-th `sbatch` call that exits non-zero aborts the whole
call with the submission error (the `k` earlier submissions stand — the
trace holds exactly `k + 1` sbatch invocations and nothing undoes them);
a `k`-th call that exits zero but whose acknowledgment does not match
`Submitted batch job (\d+)` aborts it with the parse error. -/
theorem c9_submissionFailure (oracle : Nat → ProcResult)
    (specs : List SubmitSpec) (k : Nat) (hk : k < specs.length)
    (hprev : ∀ i, i < k → (oracle i).returncode = 0 ∧
      parseJobId (oracle i).stdout ≠ none) :
    (((oracle k).returncode ≠ 0 →
      (launchJobs oracle specs 0).1.length = k + 1 ∧
      (launchJobs oracle specs 0).2 =
        .error (.submissionError (oracle k).returncode)) ∧
     ((oracle k).returncode = 0 → parseJobId (oracle k).stdout = none →
      (launchJobs oracle specs 0).1.length = k + 1 ∧
      (launchJobs oracle specs 0).2 = .error .parseError)) := by
  have hres := launchJobs_fail oracle specs k 0 hk ?_
  · simpa using hres
  · intro i hi
    simpa using hprev i hi

/-- Witness for C9: the first submission succeeds, the second exits with
code 1; the loop stops with the submission error after two sbatch calls. -/
theorem c9_submissionFailure_witness :
    ((fun i => if i = 0 then ProcResult.mk 0 "Submitted batch job 1"
      else ProcResult.mk 1 "boom") 1).returncode ≠ 0 ∧
    (launchJobs
      (fun i => if i = 0 then ProcResult.mk 0 "Submitted batch job 1"
        else ProcResult.mk 1 "boom")
      [⟨"redo00", "a", none, none, none, none⟩,
       ⟨"redo01", "b", none, none, none, none⟩] 0).1.length = 2 ∧
    (launchJobs
      (fun i => if i = 0 then ProcResult.mk 0 "Submitted batch job 1"
        else ProcResult.mk 1 "boom")
      [⟨"redo00", "a", none, none, none, none⟩,
       ⟨"redo01", "b", none, none, none, none⟩] 0).2 =
      .error (.submissionError 1) := by
  have hr := (c9_submissionFailure
    (fun i => if i = 0 then ProcResult.mk 0 "Submitted batch job 1"
      else ProcResult.mk 1 "boom")
    [⟨"redo00", "a", none, none, none, none⟩,
     ⟨"redo01", "b", none, none, none, none⟩] 1
    (by decide) (by decide)).1 (by decide)
  exact ⟨by decide, hr.1, hr.2⟩

/-! ## Claim C6: flag construction in `sbatch_args` -/

/-- Membership in an `if`-guarded list whose other branch is empty. -/
theorem mem_ite_nil (x : String) (c : Prop) [Decidable c] (l : List String) :
    (x ∈ if c then l else []) ↔ c ∧ x ∈ l := by
  split <;> simp_all

/-- Full characterisation of membership in the constructed `sbatch_args`
list. -/
theorem mem_sbatchArgs (x : String) (part : Option String) (nCpu : Option Nat)
    (mv tv : Option String) :
    x ∈ sbatchArgs part nCpu mv tv ↔
      ((∃ p, part = some p ∧ (x = "--partition" ∨ x = p)) ∨
       (∃ n, nCpu = some n ∧ (x = "--cpus-per-task" ∨ x = toString n)) ∨
       (∃ s, mv = some s ∧ (x = "--mem" ∨ x = s)) ∨
       (∃ s, tv = some s ∧ (x = "--time" ∨ x = s)) ∨
       (isGpuPartition part = true ∧ x = "--gres=gpu:1")) := by
  rcases part with _ | p <;> rcases nCpu with _ | n <;> rcases mv with _ | m <;>
    rcases tv with _ | t <;>
    simp [sbatchArgs, mem_ite_nil, isGpuPartition, or_assoc]

/-- A flag-value that is none of the five flag strings, both
orientations. -/
theorem allNotFlag {o : Option String} {s : String}
    (h : o.all (fun x => !sbatchFlags.contains x) = true) (ho : o = some s) :
    s ≠ "--partition" ∧ s ≠ "--cpus-per-task" ∧ s ≠ "--mem" ∧ s ≠ "--time" ∧
    s ≠ "--gres=gpu:1" := by
  subst ho
  simpa [sbatchFlags] using h

/-- Same, for the CPU count rendered with `str(...)`. -/
theorem allNotFlagNat {o : Option Nat} {n : Nat}
    (h : o.all (fun x => !sbatchFlags.contains (toString x)) = true)
    (ho : o = some n) :
    toString n ≠ "--partition" ∧ toString n ≠ "--cpus-per-task" ∧
    toString n ≠ "--mem" ∧ toString n ≠ "--time" ∧
    toString n ≠ "--gres=gpu:1" := by
  subst ho
  simpa [sbatchFlags] using h

/-- C6: in the constructed `sbatch_args` list, the GPU resource request
`--gres=gpu:1` occurs iff the partition classifies as GPU, and each of
the partition, CPU-count, memory and time flags occurs iff the
corresponding field is non-null.  The hypotheses record that the field
values themselves are not flag strings (no value of a resource field is
literally one of the five flags). -/
theorem c6_sbatchArgs_flags (part : Option String) (nCpu : Option Nat)
    (mv tv : Option String)
    (hp : part.all (fun s => !sbatchFlags.contains s) = true)
    (hc : nCpu.all (fun n => !sbatchFlags.contains (toString n)) = true)
    (hm : mv.all (fun s => !sbatchFlags.contains s) = true)
    (ht : tv.all (fun s => !sbatchFlags.contains s) = true) :
    (("--gres=gpu:1" ∈ sbatchArgs part nCpu mv tv) ↔ isGpuPartition part = true) ∧
    (("--partition" ∈ sbatchArgs part nCpu mv tv) ↔ part ≠ none) ∧
    (("--cpus-per-task" ∈ sbatchArgs part nCpu mv tv) ↔ nCpu ≠ none) ∧
    (("--mem" ∈ sbatchArgs part nCpu mv tv) ↔ mv ≠ none) ∧
    (("--time" ∈ sbatchArgs part nCpu mv tv) ↔ tv ≠ none) := by
  refine ⟨⟨?_, ?_⟩, ⟨?_, ?_⟩, ⟨?_, ?_⟩, ⟨?_, ?_⟩, ⟨?_, ?_⟩⟩
  · rw [mem_sbatchArgs]
    rintro (⟨p, hpo, h | h⟩ | ⟨n, hno, h | h⟩ | ⟨s, hmo, h | h⟩ |
      ⟨s, hto, h | h⟩ | ⟨hg, _⟩)
    · exact absurd h (by decide)
    · exact absurd h.symm (allNotFlag hp hpo).2.2.2.2
    · exact absurd h (by decide)
    · exact absurd h.symm (allNotFlagNat hc hno).2.2.2.2
    · exact absurd h (by decide)
    · exact absurd h.symm (allNotFlag hm hmo).2.2.2.2
    · exact absurd h (by decide)
    · exact absurd h.symm (allNotFlag ht hto).2.2.2.2
    · exact hg
  · intro hg
    exact (mem_sbatchArgs _ _ _ _ _).mpr
      (Or.inr (Or.inr (Or.inr (Or.inr ⟨hg, rfl⟩))))
  · rw [mem_sbatchArgs]
    rintro (⟨p, hpo, h | h⟩ | ⟨n, hno, h | h⟩ | ⟨s, hmo, h | h⟩ |
      ⟨s, hto, h | h⟩ | ⟨_, h⟩)
    · simp [hpo]
    · exact absurd h.symm (allNotFlag hp hpo).1
    · exact absurd h (by decide)
    · exact absurd h.symm (allNotFlagNat hc hno).1
    · exact absurd h (by decide)
    · exact absurd h.symm (allNotFlag hm hmo).1
    · exact absurd h (by decide)
    · exact absurd h.symm (allNotFlag ht hto).1
    · exact absurd h (by decide)
  · intro hne
    obtain ⟨p, hpo⟩ := Option.ne_none_iff_exists'.mp hne
    exact (mem_sbatchArgs _ _ _ _ _).mpr (Or.inl ⟨p, hpo, Or.inl rfl⟩)
  · rw [mem_sbatchArgs]
    rintro (⟨p, hpo, h | h⟩ | ⟨n, hno, h | h⟩ | ⟨s, hmo, h | h⟩ |
      ⟨s, hto, h | h⟩ | ⟨_, h⟩)
    · exact absurd h (by decide)
    · exact absurd h.symm (allNotFlag hp hpo).2.1
    · simp [hno]
    · exact absurd h.symm (allNotFlagNat hc hno).2.1
    · exact absurd h (by decide)
    · exact absurd h.symm (allNotFlag hm hmo).2.1
    · exact absurd h (by decide)
    · exact absurd h.symm (allNotFlag ht hto).2.1
    · exact absurd h (by decide)
  · intro hne
    obtain ⟨n, hno⟩ := Option.ne_none_iff_exists'.mp hne
    exact (mem_sbatchArgs _ _ _ _ _).mpr
      (Or.inr (Or.inl ⟨n, hno, Or.inl rfl⟩))
  · rw [mem_sbatchArgs]
    rintro (⟨p, hpo, h | h⟩ | ⟨n, hno, h | h⟩ | ⟨s, hmo, h | h⟩ |
      ⟨s, hto, h | h⟩ | ⟨_, h⟩)
    · exact absurd h (by decide)
    · exact absurd h.symm (allNotFlag hp hpo).2.2.1
    · exact absurd h (by decide)
    · exact absurd h.symm (allNotFlagNat hc hno).2.2.1
    · simp [hmo]
    · exact absurd h.symm (allNotFlag hm hmo).2.2.1
    · exact absurd h (by decide)
    · exact absurd h.symm (allNotFlag ht hto).2.2.1
    · exact absurd h (by decide)
  · intro hne
    obtain ⟨s, hmo⟩ := Option.ne_none_iff_exists'.mp hne
    exact (mem_sbatchArgs _ _ _ _ _).mpr
      (Or.inr (Or.inr (Or.inl ⟨s, hmo, Or.inl rfl⟩)))
  · rw [mem_sbatchArgs]
    rintro (⟨p, hpo, h | h⟩ | ⟨n, hno, h | h⟩ | ⟨s, hmo, h | h⟩ |
      ⟨s, hto, h | h⟩ | ⟨_, h⟩)
    · exact absurd h (by decide)
    · exact absurd h.symm (allNotFlag hp hpo).2.2.2.1
    · exact absurd h (by decide)
    · exact absurd h.symm (allNotFlagNat hc hno).2.2.2.1
    · exact absurd h (by decide)
    · exact absurd h.symm (allNotFlag hm hmo).2.2.2.1
    · simp [hto]
    · exact absurd h.symm (allNotFlag ht hto).2.2.2.1
    · exact absurd h (by decide)
  · intro hne
    obtain ⟨s, hto⟩ := Option.ne_none_iff_exists'.mp hne
    exact (mem_sbatchArgs _ _ _ _ _).mpr
      (Or.inr (Or.inr (Or.inr (Or.inl ⟨s, hto, Or.inl rfl⟩))))

/-- Witness for C6 at a GPU partition with all resource fields set. -/
theorem c6_sbatchArgs_flags_witness :
    (("--gres=gpu:1" ∈ sbatchArgs (some "gpu-v100") (some 2) (some "10G")
        (some "3-00:00")) ↔ isGpuPartition (some "gpu-v100") = true) ∧
    (("--partition" ∈ sbatchArgs (some "gpu-v100") (some 2) (some "10G")
        (some "3-00:00")) ↔ (some "gpu-v100" : Option String) ≠ none) ∧
    (("--cpus-per-task" ∈ sbatchArgs (some "gpu-v100") (some 2) (some "10G")
        (some "3-00:00")) ↔ (some 2 : Option Nat) ≠ none) ∧
    (("--mem" ∈ sbatchArgs (some "gpu-v100") (some 2) (some "10G")
        (some "3-00:00")) ↔ (some "10G" : Option String) ≠ none) ∧
    (("--time" ∈ sbatchArgs (some "gpu-v100") (some 2) (some "10G")
        (some "3-00:00")) ↔ (some "3-00:00" : Option String) ≠ none) :=
  c6_sbatchArgs_flags (some "gpu-v100") (some 2) (some "10G") (some "3-00:00")
    (by decide) (by decide) (by decide) (by decide)

/-! ## Claim C10: `mem` bypasses the staleness filter -/

/-- Field-wise view of the launch-loop zip: each field column is the
prefix of its input list up to the zip's (truncated) length. -/
theorem zipSpecs_projections : ∀ (ns ds : List String)
    (ps : List (Option String)) (cs : List (Option Nat))
    (ms ts : List (Option String)),
    (zipSpecs ns ds ps cs ms ts).map (fun x => x.name) =
      ns.take (zipSpecs ns ds ps cs ms ts).length ∧
    (zipSpecs ns ds ps cs ms ts).map (fun x => x.dep) =
      ds.take (zipSpecs ns ds ps cs ms ts).length ∧
    (zipSpecs ns ds ps cs ms ts).map (fun x => x.part) =
      ps.take (zipSpecs ns ds ps cs ms ts).length ∧
    (zipSpecs ns ds ps cs ms ts).map (fun x => x.nCpu) =
      cs.take (zipSpecs ns ds ps cs ms ts).length ∧
    (zipSpecs ns ds ps cs ms ts).map (fun x => x.mem) =
      ms.take (zipSpecs ns ds ps cs ms ts).length ∧
    (zipSpecs ns ds ps cs ms ts).map (fun x => x.timeStr) =
      ts.take (zipSpecs ns ds ps cs ms ts).length := by
  intro ns
  induction ns with
  | nil => intro ds ps cs ms ts; simp [zipSpecs]
  | cons n ns ih =>
    intro ds ps cs ms ts
    cases ds with
    | nil => simp [zipSpecs]
    | cons d ds =>
      cases ps with
      | nil => simp [zipSpecs]
      | cons p ps =>
        cases cs with
        | nil => simp [zipSpecs]
        | cons c cs =>
          cases ms with
          | nil => simp [zipSpecs]
          | cons m ms =>
            cases ts with
            | nil => simp [zipSpecs]
            | cons t ts =>
              obtain ⟨h1, h2, h3, h4, h5, h6⟩ := ih ds ps cs ms ts
              simp [zipSpecs, h1, h2, h3, h4, h5, h6]

/-- Filtering two same-length lists by the same booleans keeps them the
same length. -/
theorem filterZip_length_congr {α β : Type} : ∀ (xs : List α) (ys : List β)
    (bs : List Bool), xs.length = ys.length →
    (filterZip xs bs).length = (filterZip ys bs).length := by
  intro xs
  induction xs with
  | nil =>
    intro ys bs h
    cases ys with
    | nil => rfl
    | cons y ys => simp at h
  | cons x xs ih =>
    intro ys bs h
    cases ys with
    | nil => simp at h
    | cons y ys =>
      cases bs with
      | nil => rfl
      | cons b bs =>
        have h2 : xs.length = ys.length := by simpa using h
        cases b <;> simp [filterZip, List.zip_cons_cons] <;>
          simpa [filterZip] using ih ys bs h2

/-- Filtering never lengthens a list. -/
theorem filterZip_length_le {α : Type} (xs : List α) (bs : List Bool) :
    (filterZip xs bs).length ≤ xs.length := by
  calc (filterZip xs bs).length ≤ (xs.zip bs).length :=
        List.length_filterMap_le _ _
    _ ≤ xs.length := by simp [List.length_zip]

/-- C10: with every resource field given as a per-target list of the
targets' length, the job list the remote branch hands to the launcher
pairs the surviving (stale) targets with `mem` values by ORIGINAL
position — the `mem` column is the unfiltered list's prefix — whereas the
partition (and dependency) columns are the staleness-filtered lists. -/
theorem c10_memUnfiltered (deplist ns : List String) (bs : List Bool)
    (ps : List (Option String)) (cs : List (Option Nat))
    (ms ts : List (Option String))
    (hns : ns.length = deplist.length) (hps : ps.length = deplist.length)
    (hcs : cs.length = deplist.length) (hms : ms.length = deplist.length)
    (hts : ts.length = deplist.length) :
    (remoteSpecs deplist bs (.list ps) (.list cs) (.list ms) (.list ts)
        (.list ns)).map (fun x => x.mem) =
      ms.take (filterZip deplist bs).length ∧
    (remoteSpecs deplist bs (.list ps) (.list cs) (.list ms) (.list ts)
        (.list ns)).map (fun x => x.part) = filterZip ps bs ∧
    (remoteSpecs deplist bs (.list ps) (.list cs) (.list ms) (.list ts)
        (.list ns)).map (fun x => x.dep) = filterZip deplist bs := by
  have hzs : remoteSpecs deplist bs (.list ps) (.list cs) (.list ms)
      (.list ts) (.list ns) =
      zipSpecs (filterZip ns bs) (filterZip deplist bs) (filterZip ps bs)
        (filterZip cs bs) ms (filterZip ts bs) := rfl
  have hn := filterZip_length_congr ns deplist bs hns
  have hp := filterZip_length_congr ps deplist bs hps
  have hc := filterZip_length_congr cs deplist bs hcs
  have ht := filterZip_length_congr ts deplist bs hts
  have hle : (filterZip deplist bs).length ≤ ms.length := by
    have := filterZip_length_le deplist bs
    omega
  have hlen : (zipSpecs (filterZip ns bs) (filterZip deplist bs)
      (filterZip ps bs) (filterZip cs bs) ms (filterZip ts bs)).length =
      (filterZip deplist bs).length := by
    rw [zipSpecs_length]
    omega
  obtain ⟨-, hdep, hpart, -, hmem, -⟩ := zipSpecs_projections
    (filterZip ns bs) (filterZip deplist bs) (filterZip ps bs)
    (filterZip cs bs) ms (filterZip ts bs)
  rw [hlen] at hdep hpart hmem
  refine ⟨?_, ?_, ?_⟩
  · rw [hzs, hmem]
  · rw [hzs, hpart, ← hp, List.take_length]
  · rw [hzs, hdep, List.take_length]

/-- Witness for C10: targets `["a", "b"]` with `a` up to date; the single
submitted job (for `b`) carries the first memory value `1G`, not `b`'s
own `2G`, while its partition is `b`'s own. -/
theorem c10_memUnfiltered_witness :
    (remoteSpecs ["a", "b"] [false, true] (.list [some "p0", some "p1"])
        (.list [none, none]) (.list [some "1G", some "2G"])
        (.list [none, none]) (.list ["n0", "n1"])).map (fun x => x.mem) =
      [some "1G"] ∧
    (remoteSpecs ["a", "b"] [false, true] (.list [some "p0", some "p1"])
        (.list [none, none]) (.list [some "1G", some "2G"])
        (.list [none, none]) (.list ["n0", "n1"])).map (fun x => x.part) =
      [some "p1"] := by
  have hr := c10_memUnfiltered ["a", "b"] ["n0", "n1"] [false, true]
    [some "p0", some "p1"] [none, none] [some "1G", some "2G"] [none, none]
    (by decide) (by decide) (by decide) (by decide) (by decide)
  exact ⟨by rw [hr.1]; decide, by rw [hr.2.1]; decide⟩

end Redo
